import Mathlib

/-!
Verification of the `users` record-management service.

This file gives a shallow embedding of the data-access and validation
layer of the service: the pure validator (`validateUserData`), the SQL
statement semantics implied by the `users` table schema in
`src/database/init.js`, the database façade in `src/database/database.js`
(`query`, `queryOne`, `execute`), the repository in
`src/database/userRepository.js`, and the HTTP controllers that drive
them.  Strings are modelled as lists of characters with JavaScript-style
`trim` and (ASCII) `toLowerCase`; JavaScript values that matter to the
validator (strings, numbers, `NaN`, `undefined`) are modelled
explicitly, so that truthiness checks and `Number(...)` coercion follow
the source.
-/

deriving instance DecidableEq for Except

namespace Users

/-- A JavaScript string, modelled as a list of characters. -/
abbrev Str := List Char

/-- Whitespace characters removed by JavaScript's `String.prototype.trim`
(ASCII fragment). -/
def isWsChar (c : Char) : Bool :=
  decide (c = ' ') || decide (c = '\t') || decide (c = '\n') || decide (c = '\r')

/-- ASCII lower-casing of one character, as performed by JavaScript's
`String.prototype.toLowerCase` on ASCII input: `A`–`Z` (codes 65–90) map
to `a`–`z`, all other characters are unchanged. -/
def lowerChar (c : Char) : Char :=
  if h : 65 ≤ c.toNat ∧ c.toNat ≤ 90 then
    Char.ofNatAux (c.toNat + 32) (Or.inl (by omega))
  else c

/-- `s.toLowerCase()`. -/
def jsToLower (s : Str) : Str := s.map lowerChar

/-- Remove leading whitespace. -/
def wsDrop (s : Str) : Str := s.dropWhile isWsChar

/-- Remove trailing whitespace. -/
def wsDropEnd (s : Str) : Str := (wsDrop s.reverse).reverse

/-- `s.trim()`: remove leading and trailing whitespace. -/
def jsTrim (s : Str) : Str := wsDropEnd (wsDrop s)

/-- The normalization `e.toLowerCase().trim()` applied to emails before
lookups and writes. -/
def normEmail (s : Str) : Str := jsTrim (jsToLower s)

/-! ## JavaScript values

The validator receives a request body whose `age` member may be a
string, a number (possibly `NaN`), or absent (`undefined`).  Numbers are
modelled as integers plus `NaN`: every numeric input exercised by the
service (the `age` column is declared `INTEGER`) is integral. -/

/-- A JavaScript number: an integer or `NaN`. -/
inductive JNum where
  | nan
  | int (n : Int)
deriving DecidableEq

/-- A JavaScript value as far as the validator's `age` handling is
concerned: a string, a number, or `undefined`. -/
inductive JVal where
  | str (s : Str)
  | num (j : JNum)
  | undefined
deriving DecidableEq

/-- JavaScript falsiness of a `JVal`: `undefined`, `NaN`, `0` and the
empty string are falsy. -/
def jsFalsy : JVal → Bool
  | .undefined => true
  | .num .nan => true
  | .num (.int n) => decide (n = 0)
  | .str s => decide (s = [])

/-- Decimal rendering of an integer, as `Number.prototype.toString`
produces for integral values. -/
def intToStr (n : Int) : Str :=
  match n with
  | .ofNat m => (Nat.repr m).toList
  | .negSucc m => '-' :: (Nat.repr (m + 1)).toList

/-- `v.toString()` (only ever called on truthy values in the source;
the rendering of `undefined` is included for totality). -/
def jvalToString : JVal → Str
  | .str s => s
  | .num .nan => "NaN".toList
  | .num (.int n) => intToStr n
  | .undefined => "undefined".toList

def isDigitChar (c : Char) : Bool := decide ('0' ≤ c) && decide (c ≤ '9')

def digitsToNat (s : Str) : Nat := s.foldl (fun a c => 10 * a + (c.toNat - 48)) 0

/-- `Number(string)` on the integer-literal fragment: surrounding
whitespace is trimmed, the empty string is `0`, an optional sign
followed by digits parses, anything else is `NaN`. -/
def strToNum (s : Str) : JNum :=
  match jsTrim s with
  | [] => .int 0
  | '-' :: rest =>
    if !(decide (rest = [])) && rest.all isDigitChar then .int (-(digitsToNat rest : Int))
    else .nan
  | '+' :: rest =>
    if !(decide (rest = [])) && rest.all isDigitChar then .int (digitsToNat rest)
    else .nan
  | c :: rest =>
    if (c :: rest).all isDigitChar then .int (digitsToNat (c :: rest)) else .nan

/-- `Number(v)` coercion. -/
def jsNumber : JVal → JNum
  | .str s => strToNum s
  | .num j => j
  | .undefined => .nan

/-! ## Validator (`validateUserData`, `src/database/config.js` lines 30–63,
identical text in `src/controllers/userController.js` lines 20–53)

Request bodies are modelled with string-valued text fields (an absent
field behaves exactly like the empty string throughout the validator:
both are falsy, and every later access is guarded by a truthiness
check) and a full JavaScript value for `age`, whose
`undefined`/`0`/`NaN` distinctions the validator observes. -/

/-- One field of a request body. -/
inductive Field where
  | name | email | phone | city | gender | age
deriving DecidableEq

/-- A validation error, one constructor per distinct message pushed by
`validateUserData`. -/
inductive VErr where
  /-- `<field> is required` -/
  | required (f : Field)
  /-- `Invalid email format` -/
  | invalidEmail
  /-- `Age must be a valid number between 0 and 150` -/
  | ageRange
  /-- `Gender must be male, female, or other` -/
  | genderEnum
deriving DecidableEq

/-- A request body (`req.body`). -/
structure ReqBody where
  name : Str
  email : Str
  phone : Str
  city : Str
  gender : Str
  age : JVal
deriving DecidableEq

/-- `!userData[field] || userData[field].toString().trim() === ''` for a
string-valued field. -/
def strFieldMissing (s : Str) : Bool :=
  decide (s = []) || decide (jsTrim s = [])

/-- The same check for the `age` field, which can hold any value. -/
def ageFieldMissing (v : JVal) : Bool :=
  jsFalsy v || decide (jsTrim (jvalToString v) = [])

/-- A character matched by the `[^\s@]` class of the email regex. -/
def emailClassChar (c : Char) : Bool := !isWsChar c && !(decide (c = '@'))

def splitOnAtAux : Str → Str → List Str
  | [], acc => [acc.reverse]
  | c :: rest, acc =>
    if c = '@' then acc.reverse :: splitOnAtAux rest [] else splitOnAtAux rest (c :: acc)

/-- Split a string at every `@`. -/
def splitOnAt (s : Str) : List Str := splitOnAtAux s []

/-- The test `/^[^\s@]+@[^\s@]+\.[^\s@]+$/.test(email)`: exactly one
`@`, a non-empty local part, and a domain part containing a `.` with at
least one class character on each side. -/
def isValidEmail (s : Str) : Bool :=
  match splitOnAt s with
  | [loc, dom] =>
    !(decide (loc = [])) && loc.all emailClassChar && dom.all emailClassChar &&
      (dom.drop 1).dropLast.contains '.'
  | _ => false

/-- The accepted genders, lower-case. -/
def genderEnumList : List Str := ["male".toList, "female".toList, "other".toList]

/-- Result of `validateUserData`. -/
structure ValidationResult where
  isValid : Bool
  errors : List VErr
deriving DecidableEq

/-- The required-field loop of `validateUserData`, in field order. -/
def requiredErrors (d : ReqBody) : List VErr :=
  (if strFieldMissing d.name then [.required .name] else []) ++
  (if strFieldMissing d.email then [.required .email] else []) ++
  (if strFieldMissing d.phone then [.required .phone] else []) ++
  (if strFieldMissing d.city then [.required .city] else []) ++
  (if strFieldMissing d.gender then [.required .gender] else []) ++
  (if ageFieldMissing d.age then [.required .age] else [])

/-- `if (userData.email && !isValidEmail(userData.email))`. -/
def emailErrors (e : Str) : List VErr :=
  if !(decide (e = [])) && !isValidEmail e then [.invalidEmail] else []

/-- `if (userData.age !== undefined)`: `Number(age)` must be a number
within `0 ≤ age ≤ 150`. -/
def ageErrors (a : JVal) : List VErr :=
  if a = JVal.undefined then []
  else
    match jsNumber a with
    | .nan => [.ageRange]
    | .int n => if n < 0 ∨ 150 < n then [.ageRange] else []

/-- `if (userData.gender && !['male','female','other'].includes(...))`. -/
def genderErrors (g : Str) : List VErr :=
  if !(decide (g = [])) && !(genderEnumList.contains (jsToLower g))
  then [.genderEnum] else []

/-- `validateUserData` (`src/database/config.js` lines 30–63): the
required-field loop, then the email-format, age-range and gender-enum
checks, collecting all errors. -/
def validateUserData (d : ReqBody) : ValidationResult :=
  ⟨decide ((requiredErrors d ++ emailErrors d.email ++ ageErrors d.age ++
      genderErrors d.gender).length = 0),
   requiredErrors d ++ emailErrors d.email ++ ageErrors d.age ++ genderErrors d.gender⟩

/-! ## The `users` table and SQL statement semantics

The table is created by `src/database/init.js`: columns
`id TEXT PRIMARY KEY`, `name/email/phone/city/gender TEXT NOT NULL`
with `email UNIQUE` and `gender` constrained to the enumeration,
`age INTEGER` constrained to `0 ≤ age ≤ 150`, and
`created_at`/`updated_at` defaulting to the current timestamp, with an
`AFTER UPDATE` trigger refreshing `updated_at`.  A store is the list of
rows in insertion order; timestamps are abstract clock readings. -/

/-- One row of the `users` table. -/
structure User where
  id : Str
  name : Str
  email : Str
  phone : Str
  city : Str
  gender : Str
  age : JNum
  created_at : Nat
  updated_at : Nat
deriving DecidableEq

/-- The table contents, in insertion order. -/
abbrev Store := List User

/-- The six mutable columns, as bound by the INSERT/UPDATE statements of
`src/database/userRepository.js`. -/
structure UserFields where
  name : Str
  email : Str
  phone : Str
  city : Str
  gender : Str
  age : JNum
deriving DecidableEq

/-- The `CHECK (gender IN ('male','female','other'))` column constraint. -/
def genderOk (g : Str) : Bool := genderEnumList.contains g

/-- The `CHECK (age >= 0 AND age <= 150)` column constraint. -/
def ageOkNum : JNum → Bool
  | .nan => false
  | .int n => decide (0 ≤ n) && decide (n ≤ 150)

/-- The object `execute` resolves with (`src/database/database.js`
lines 106–109): `{ lastID: this.lastID, changes: this.changes }`. -/
structure ExecResult where
  lastID : Nat
  changes : Nat
deriving DecidableEq

/-- An error rejected by the database layer. -/
inductive SqlError where
  /-- a UNIQUE / PRIMARY KEY / CHECK constraint violation -/
  | constraintViolation
  /-- a malformed statement (e.g. `OFFSET` without `LIMIT` in SQLite) -/
  | invalidSql
deriving DecidableEq

/-- `INSERT INTO users (id, name, email, phone, city, gender, age)
VALUES (?, ?, ?, ?, ?, ?, ?)` against the schema above: the statement
aborts on a duplicate id or email or a failed CHECK; otherwise it
appends the row with both timestamps set to the current time. -/
def sqlInsertUser (i : Str) (f : UserFields) (now : Nat) (st : Store) :
    Except SqlError (ExecResult × Store) :=
  if st.any (fun v => decide (v.id = i)) || st.any (fun v => decide (v.email = f.email))
      || !genderOk f.gender || !ageOkNum f.age then
    .error .constraintViolation
  else
    .ok (⟨0, 1⟩, st ++ [⟨i, f.name, f.email, f.phone, f.city, f.gender, f.age, now, now⟩])

/-- `UPDATE users SET name = ?, email = ?, phone = ?, city = ?,
gender = ?, age = ? WHERE id = ?`: zero changes when no row matches;
otherwise the statement aborts if the new email belongs to a different
row or a CHECK fails, and else rewrites the matching rows, the trigger
refreshing `updated_at`. -/
def sqlUpdateUser (i : Str) (f : UserFields) (now : Nat) (st : Store) :
    Except SqlError (ExecResult × Store) :=
  if (st.filter (fun v => decide (v.id = i))).length = 0 then .ok (⟨0, 0⟩, st)
  else if st.any (fun v => decide (v.id ≠ i) && decide (v.email = f.email))
      || !genderOk f.gender || !ageOkNum f.age then
    .error .constraintViolation
  else
    .ok (⟨0, (st.filter (fun v => decide (v.id = i))).length⟩,
      st.map (fun v =>
        if v.id = i then
          { v with name := f.name, email := f.email, phone := f.phone, city := f.city,
                   gender := f.gender, age := f.age, updated_at := now }
        else v))

/-- `DELETE FROM users WHERE id = ?`: removes the matching rows and
reports how many changed. -/
def sqlDeleteUser (i : Str) (st : Store) : Except SqlError (ExecResult × Store) :=
  .ok (⟨0, (st.filter (fun v => decide (v.id = i))).length⟩,
    st.filter (fun v => decide (v.id ≠ i)))

/-! ## Repository (`src/database/userRepository.js`) -/

/-- `getUserById`: `SELECT * FROM users WHERE id = ?` via `queryOne`,
which resolves the first matching row or `null`. -/
def repoGetUserById (i : Str) (st : Store) : Option User :=
  st.find? (fun u => decide (u.id = i))

/-- `getUserByEmail`: `SELECT * FROM users WHERE email = ?` via
`queryOne`. -/
def repoGetUserByEmail (e : Str) (st : Store) : Option User :=
  st.find? (fun u => decide (u.email = e))

/-- The repository reads `result.affectedRows` from the object returned
by `execute`; that object only carries `lastID` and `changes`
(`src/database/database.js` lines 106–109), so the property access
yields `undefined`. -/
def affectedRowsOf (res : ExecResult) : JVal := .undefined

/-- The strict comparison `result.affectedRows === 1`. -/
def isAffectedRowsOne (r : ExecResult) : Bool :=
  decide (affectedRowsOf r = JVal.num (.int 1))

/-- An error thrown out of a repository method. -/
inductive RepoError where
  /-- an error rejected by the awaited `execute` promise -/
  | sql (e : SqlError)
  /-- `throw new Error('Failed to create user')` -/
  | createFailed
deriving DecidableEq

/-- `createUser` (`src/database/userRepository.js` lines 84–107): run
the INSERT, then re-read by id when `result.affectedRows === 1`, else
throw `'Failed to create user'`. -/
def repoCreateUser (i : Str) (f : UserFields) (now : Nat) (st : Store) :
    Except RepoError (Option User) × Store :=
  match sqlInsertUser i f now st with
  | .error e => (.error (.sql e), st)
  | .ok (res, st') =>
    if isAffectedRowsOne res then (.ok (repoGetUserById i st'), st')
    else (.error .createFailed, st')

/-- `updateUser` (lines 115–140): run the UPDATE, then re-read by id
when `result.affectedRows === 1`, else resolve `null`. -/
def repoUpdateUser (i : Str) (f : UserFields) (now : Nat) (st : Store) :
    Except RepoError (Option User) × Store :=
  match sqlUpdateUser i f now st with
  | .error e => (.error (.sql e), st)
  | .ok (res, st') =>
    if isAffectedRowsOne res then (.ok (repoGetUserById i st'), st')
    else (.ok none, st')

/-- `deleteUser` (lines 147–151): run the DELETE and resolve
`result.affectedRows === 1`. -/
def repoDeleteUser (i : Str) (st : Store) : Except RepoError Bool × Store :=
  match sqlDeleteUser i st with
  | .error e => (.error (.sql e), st)
  | .ok (res, st') => (.ok (isAffectedRowsOne res), st')

/-- The options object accepted by `getAllUsers`; `limit`/`offset` hold
`parseInt` results, so can be `NaN`. -/
structure ListOptions where
  limit : Option JNum
  offset : Option JNum
  city : Option Str
  gender : Option Str
  search : Option Str
deriving DecidableEq

/-- Truthiness of an optional numeric option. -/
def optNumTruthy : Option JNum → Bool
  | some (.int n) => decide (n ≠ 0)
  | some .nan => false
  | none => false

/-- The numeric value of an option (only read after a truthiness
check). -/
def optNumVal : Option JNum → Int
  | some (.int n) => n
  | _ => 0

/-- Truthiness of an optional string option. -/
def optStrTruthy : Option Str → Bool
  | some s => decide (s ≠ [])
  | none => false

/-- The `city = ?` clause, appended only when `city` is truthy. -/
def cityClause : Option Str → User → Bool
  | some s, u => if decide (s = []) then true else decide (u.city = s)
  | none, _ => true

/-- The `gender = ?` clause, appended only when `gender` is truthy. -/
def genderClause : Option Str → User → Bool
  | some s, u => if decide (s = []) then true else decide (u.gender = s)
  | none, _ => true

/-- Whether `pat` occurs as a contiguous substring. -/
def strHasInfix (pat : Str) : Str → Bool
  | [] => decide (pat = [])
  | c :: rest => pat.isPrefixOf (c :: rest) || strHasInfix pat rest

/-- SQLite `LIKE '%term%'`: case-insensitive (ASCII) substring match. -/
def likeMatch (term s : Str) : Bool := strHasInfix (jsToLower term) (jsToLower s)

/-- The `(name LIKE ? OR email LIKE ?)` clause, appended only when
`search` is truthy. -/
def searchClause : Option Str → User → Bool
  | some t, u => if decide (t = []) then true else likeMatch t u.name || likeMatch t u.email
  | none, _ => true

/-- `ORDER BY created_at DESC`. -/
def createdGe (u v : User) : Prop := v.created_at ≤ u.created_at

instance : DecidableRel createdGe := fun _ v => Nat.decLe v.created_at _

instance : IsTotal User createdGe := ⟨fun a b => Nat.le_total b.created_at a.created_at⟩

instance : IsTrans User createdGe := ⟨fun _ _ _ h1 h2 => Nat.le_trans h2 h1⟩

/-- `getAllUsers` (lines 19–57): compose the filters, order by creation
time descending, then append `LIMIT ?` when `limit` is truthy and
`OFFSET ?` when `offset` is truthy.  `OFFSET` without `LIMIT` is not
SQLite syntax, so that composition is rejected by the database; a
negative `LIMIT` means no limit and a negative `OFFSET` means zero. -/
def repoGetAllUsers (o : ListOptions) (st : Store) : Except SqlError (List User) :=
  let found := st.filter
    (fun u => cityClause o.city u && genderClause o.gender u && searchClause o.search u)
  let sorted := List.insertionSort createdGe found
  if optNumTruthy o.limit then
    let lim := optNumVal o.limit
    let afterOff :=
      if optNumTruthy o.offset then sorted.drop (optNumVal o.offset).toNat else sorted
    .ok (if lim < 0 then afterOff else afterOff.take lim.toNat)
  else if optNumTruthy o.offset then .error .invalidSql
  else .ok sorted

/-- `getUserCount` (lines 158–174): `SELECT COUNT(*)` with the
city/gender clauses only. -/
def repoGetUserCount (city gender : Option Str) (st : Store) : Nat :=
  (st.filter (fun u => cityClause city u && genderClause gender u)).length

/-! ## Controllers (`src/database/config.js` lines 80–441)

Each handler is a function from the request and the current store to
the HTTP response and the next store.  The existence/conflict pre-checks
and the mutating statement are separate queries, so the controller
functions take the store at pre-check time and the store at write time
as two parameters; the sequential (no interleaving) versions pass the
same store twice. -/

/-- An HTTP response, one constructor per `res.status(...).json(...)`
shape the handlers produce. -/
inductive HttpOut where
  /-- 201, `data: createdUser` -/
  | createdU (data : Option User)
  /-- 200, `data: user` -/
  | okUser (data : User)
  /-- 200, `data: users` plus pagination metadata -/
  | okList (data : List User) (total : Nat) (limit : Option Int) (offset : Int) (count : Nat)
  /-- 200, `User deleted successfully` -/
  | okDeleted
  /-- 400, `Validation failed` -/
  | badRequest (errors : List VErr)
  /-- 404, `User not found` -/
  | notFound
  /-- 409, `Email already exists` -/
  | conflict
  /-- 500, `Internal server error` / `Failed to update user` /
  `Failed to delete user` -/
  | serverError
deriving DecidableEq

/-- The HTTP status code of a response. -/
def statusOf : HttpOut → Nat
  | .createdU _ => 201
  | .okUser _ => 200
  | .okList _ _ _ _ _ => 200
  | .okDeleted => 200
  | .badRequest _ => 400
  | .notFound => 404
  | .conflict => 409
  | .serverError => 500

/-- The normalized column values built by the create/update handlers:
trimmed name/phone/city, lower-cased trimmed email, lower-cased gender,
`Number(age)`. -/
def normalizedFields (d : ReqBody) : UserFields :=
  ⟨jsTrim d.name, normEmail d.email, jsTrim d.phone, jsTrim d.city,
    jsToLower d.gender, jsNumber d.age⟩

/-- `createUser` (lines 80–131), with the store at pre-check time and at
insert time distinguished: validate, reject a duplicate of the
normalized email with 409, insert, and answer 201 with the re-read row;
any error thrown below lands in the catch-all 500. -/
def ctrlCreateUserAt (body : ReqBody) (uuid : Str) (now : Nat)
    (stCheck stWrite : Store) : HttpOut × Store :=
  let validation := validateUserData body
  if !validation.isValid then (.badRequest validation.errors, stWrite)
  else
    match repoGetUserByEmail (normEmail body.email) stCheck with
    | some _ => (.conflict, stWrite)
    | none =>
      match repoCreateUser uuid (normalizedFields body) now stWrite with
      | (.ok created, st') => (.createdU created, st')
      | (.error _, st') => (.serverError, st')

/-- `createUser` with no interleaved request between the pre-check and
the insert. -/
def ctrlCreateUser (body : ReqBody) (uuid : Str) (now : Nat) (st : Store) :
    HttpOut × Store :=
  ctrlCreateUserAt body uuid now st st

/-- The tail of `updateUserById` from the `updateUser` call on: 200 with
the refreshed row, 500 `Failed to update user` on a `null` result, and
the catch-all 500 on a thrown error. -/
def finishUpdate (i : Str) (f : UserFields) (now : Nat) (st : Store) : HttpOut × Store :=
  match repoUpdateUser i f now st with
  | (.ok (some u), st') => (.okUser u, st')
  | (.ok none, st') => (.serverError, st')
  | (.error _, st') => (.serverError, st')

/-- `updateUserById` (lines 214–283), with the store at pre-check time
and at update time distinguished: 404 when the id is absent, then
validation, then the 409 duplicate-email check (skipped when the
normalized new email equals the stored one), then the UPDATE. -/
def ctrlUpdateUserAt (i : Str) (body : ReqBody) (now : Nat)
    (stCheck stWrite : Store) : HttpOut × Store :=
  match repoGetUserById i stCheck with
  | none => (.notFound, stWrite)
  | some existing =>
    let validation := validateUserData body
    if !validation.isValid then (.badRequest validation.errors, stWrite)
    else
      if body.email ≠ [] ∧ normEmail body.email ≠ existing.email then
        match repoGetUserByEmail (normEmail body.email) stCheck with
        | some _ => (.conflict, stWrite)
        | none => finishUpdate i (normalizedFields body) now stWrite
      else finishUpdate i (normalizedFields body) now stWrite

/-- `updateUserById` with no interleaved request between the pre-checks
and the update. -/
def ctrlUpdateUser (i : Str) (body : ReqBody) (now : Nat) (st : Store) :
    HttpOut × Store :=
  ctrlUpdateUserAt i body now st st

/-- `deleteUserById` (lines 290–326): 404 when the id is absent, then
the DELETE; 200 when `deleteUser` resolves `true`, 500 `Failed to
delete user` when it resolves `false`. -/
def ctrlDeleteUser (i : Str) (st : Store) : HttpOut × Store :=
  match repoGetUserById i st with
  | none => (.notFound, st)
  | some _ =>
    match repoDeleteUser i st with
    | (.ok true, st') => (.okDeleted, st')
    | (.ok false, st') => (.serverError, st')
    | (.error _, st') => (.serverError, st')

/-- The query string of `GET /users`. -/
structure ListQuery where
  limit : Option Str
  offset : Option Str
  city : Option Str
  gender : Option Str
  search : Option Str
deriving DecidableEq

/-- `parseInt` on the integer fragment: leading whitespace skipped,
optional sign, then the longest digit prefix; `NaN` when there is
none. -/
def jsParseInt (s : Str) : JNum :=
  match wsDrop s with
  | '-' :: rest =>
    let d := rest.takeWhile isDigitChar
    if d = [] then .nan else .int (-(digitsToNat d : Int))
  | '+' :: rest =>
    let d := rest.takeWhile isDigitChar
    if d = [] then .nan else .int (digitsToNat d)
  | t =>
    let d := t.takeWhile isDigitChar
    if d = [] then .nan else .int (digitsToNat d)

/-- `if (limit) options.limit = parseInt(limit)`. -/
def queryNumOpt : Option Str → Option JNum
  | some s => if decide (s = []) then none else some (jsParseInt s)
  | none => none

/-- `if (city) options.city = city` (and likewise gender, search). -/
def queryStrOpt : Option Str → Option Str
  | some s => if decide (s = []) then none else some s
  | none => none

/-- `options.limit || null` in the pagination metadata. -/
def paginationLimit : Option JNum → Option Int
  | some (.int n) => if n = 0 then none else some n
  | some .nan => none
  | none => none

/-- `options.offset || 0` in the pagination metadata. -/
def paginationOffset : Option JNum → Int
  | some (.int n) => n
  | some .nan => 0
  | none => 0

/-- `getAllUsers` (lines 138–173): build the options object from the
truthy query members, fetch the filtered page, and report pagination
metadata whose `total` comes from `getUserCount({ city, gender })` —
the raw city/gender query values, with no `search`. -/
def ctrlGetAllUsers (q : ListQuery) (st : Store) : HttpOut :=
  let opts : ListOptions :=
    ⟨queryNumOpt q.limit, queryNumOpt q.offset, queryStrOpt q.city,
      queryStrOpt q.gender, queryStrOpt q.search⟩
  match repoGetAllUsers opts st with
  | .error _ => .serverError
  | .ok users =>
    .okList users (repoGetUserCount q.city q.gender st)
      (paginationLimit opts.limit) (paginationOffset opts.offset) users.length

/-! ## Store invariant -/

/-- A row as the create/update handlers persist it: lower-cased trimmed
email, enumerated gender, trimmed non-empty name/phone/city, and an age
within the documented range. -/
def isNormalizedUser (u : User) : Prop :=
  u.email = normEmail u.email ∧
  genderOk u.gender = true ∧
  u.name = jsTrim u.name ∧ u.name ≠ [] ∧
  u.phone = jsTrim u.phone ∧ u.phone ≠ [] ∧
  u.city = jsTrim u.city ∧ u.city ≠ [] ∧
  ageOkNum u.age = true

instance (u : User) : Decidable (isNormalizedUser u) := by
  unfold isNormalizedUser
  infer_instance

/-- Every row of the store is normalized. -/
def storeNormalized (st : Store) : Prop := ∀ u ∈ st, isNormalizedUser u

instance (st : Store) : Decidable (storeNormalized st) :=
  List.decidableBAll _ st

/-! ## Concrete fixtures

Small request bodies and stores used to evaluate the operations at
specific inputs. -/

/-- `{name: " Ann ", email: "Ann@X.com", phone: "1", city: "NYC",
gender: "FEMALE", age: 29}`. -/
def annBody : ReqBody :=
  ⟨" Ann ".toList, "Ann@X.com".toList, "1".toList, "NYC".toList, "FEMALE".toList,
    .num (.int 29)⟩

/-- The row `annBody` normalizes to, inserted with id `u1` at time 5. -/
def annUser : User :=
  ⟨"u1".toList, "Ann".toList, "ann@x.com".toList, "1".toList, "NYC".toList,
    "female".toList, .int 29, 5, 5⟩

/-- A second persisted row with a distinct email. -/
def bobUser : User :=
  ⟨"u2".toList, "Bob".toList, "bob@x.com".toList, "2".toList, "NYC".toList,
    "male".toList, .int 30, 6, 6⟩

/-- An update of `annUser` that keeps its email: only phone and age
change. -/
def updBody : ReqBody :=
  ⟨"Ann".toList, "ann@x.com".toList, "99".toList, "NYC".toList, "female".toList,
    .num (.int 30)⟩

/-- The row `annUser` becomes under `updBody` at time 9. -/
def annUserUpd : User :=
  ⟨"u1".toList, "Ann".toList, "ann@x.com".toList, "99".toList, "NYC".toList,
    "female".toList, .int 30, 5, 9⟩

/-- A create request whose email equals `annUser`'s up to case. -/
def dupBody : ReqBody :=
  ⟨"Bob".toList, "ANN@x.com".toList, "2".toList, "NYC".toList, "male".toList,
    .num (.int 30)⟩

/-- An update of `annUser` changing its email to `bobUser`'s up to
case. -/
def stealBody : ReqBody :=
  ⟨"Ann".toList, "Bob@X.com".toList, "1".toList, "NYC".toList, "female".toList,
    .num (.int 29)⟩

/-- An update of `bobUser` changing its email to `annUser`'s up to
case. -/
def conflictBody : ReqBody :=
  ⟨"Bob".toList, "Ann@X.com".toList, "2".toList, "NYC".toList, "male".toList,
    .num (.int 30)⟩

/-- A body with every field missing. -/
def emptyBody : ReqBody := ⟨[], [], [], [], [], .undefined⟩

/-- A template body with valid fixed text fields and varying gender and
age, for exercising the validator's boundaries. -/
def boundaryBody (g : Str) (a : JVal) : ReqBody :=
  ⟨"Ann".toList, "ann@x.com".toList, "1".toList, "NYC".toList, g, a⟩

def parisStr : Str := "Paris".toList

/-- A row in a given city at a given creation time. -/
def cityRow (i : Str) (e : Str) (c : Str) (t : Nat) : User :=
  ⟨i, "N".toList, e, "1".toList, c, "male".toList, .int 20, t, t⟩

/-- Four rows, three of them in Paris, created at times 1, 2, 3, 5. -/
def parisStore : Store :=
  [cityRow ("a".toList) ("a@x.com".toList) parisStr 1,
   cityRow ("b".toList) ("b@x.com".toList) ("NYC".toList) 2,
   cityRow ("c".toList) ("c@x.com".toList) parisStr 3,
   cityRow ("d".toList) ("d@x.com".toList) parisStr 5]

/-- A list query filtering on Paris and searching for `a@x`. -/
def parisSearchQuery : ListQuery :=
  ⟨none, none, some parisStr, none, some ("a@x".toList)⟩

/-! ## String lemmas -/

theorem toNat_lowerChar_of_upper (c : Char) (h : 65 ≤ c.toNat ∧ c.toNat ≤ 90) :
    (lowerChar c).toNat = c.toNat + 32 := by
  unfold lowerChar
  rw [dif_pos h]
  rfl

theorem lowerChar_eq_self (c : Char) (h : ¬ (65 ≤ c.toNat ∧ c.toNat ≤ 90)) :
    lowerChar c = c := by
  unfold lowerChar
  rw [dif_neg h]

theorem lowerChar_idem (c : Char) : lowerChar (lowerChar c) = lowerChar c := by
  by_cases h : 65 ≤ c.toNat ∧ c.toNat ≤ 90
  · have h1 : (lowerChar c).toNat = c.toNat + 32 := toNat_lowerChar_of_upper c h
    exact lowerChar_eq_self (lowerChar c) (by omega)
  · rw [lowerChar_eq_self c h, lowerChar_eq_self c h]

theorem isWsChar_toNat_mem (c : Char) (h : isWsChar c = true) :
    c.toNat = 32 ∨ c.toNat = 9 ∨ c.toNat = 10 ∨ c.toNat = 13 := by
  simp only [isWsChar, Bool.or_eq_true, decide_eq_true_eq] at h
  rcases h with ((h | h) | h) | h <;> subst h <;> simp [Char.toNat]

theorem isWsChar_lowerChar (c : Char) : isWsChar (lowerChar c) = isWsChar c := by
  by_cases h : 65 ≤ c.toNat ∧ c.toNat ≤ 90
  · have h1 : (lowerChar c).toNat = c.toNat + 32 := toNat_lowerChar_of_upper c h
    have h2 : isWsChar (lowerChar c) = false := by
      cases hw : isWsChar (lowerChar c) with
      | false => rfl
      | true => exact absurd (isWsChar_toNat_mem _ hw) (by omega)
    have h3 : isWsChar c = false := by
      cases hw : isWsChar c with
      | false => rfl
      | true => exact absurd (isWsChar_toNat_mem _ hw) (by omega)
    rw [h2, h3]
  · rw [lowerChar_eq_self c h]

theorem jsToLower_idem (s : Str) : jsToLower (jsToLower s) = jsToLower s := by
  simp only [jsToLower, List.map_map]
  exact List.map_congr_left fun c _ => lowerChar_idem c

theorem wsDrop_idem (s : Str) : wsDrop (wsDrop s) = wsDrop s := by
  unfold wsDrop
  cases hl : s.dropWhile isWsChar with
  | nil => rfl
  | cons x t =>
    have h := List.head?_dropWhile_not isWsChar s
    rw [hl] at h
    simp only [List.head?_cons] at h
    rw [List.dropWhile_cons_of_neg (by simp [h])]

theorem wsDropEnd_idem (s : Str) : wsDropEnd (wsDropEnd s) = wsDropEnd s := by
  unfold wsDropEnd
  rw [List.reverse_reverse, wsDrop_idem]

theorem wsDrop_prefix_head (s : Str) (x : Char) (t : Str)
    (hs : wsDrop s = x :: t) : isWsChar x = false := by
  have h := List.head?_dropWhile_not isWsChar s
  unfold wsDrop at hs
  rw [hs] at h
  simpa using h

theorem wsDrop_wsDropEnd (s : Str) (hs : wsDrop s = s) :
    wsDrop (wsDropEnd s) = wsDropEnd s := by
  have hpre : (wsDropEnd s).IsPrefix s := by
    have hsuf : (wsDropEnd s).reverse.IsSuffix s.reverse := by
      unfold wsDropEnd wsDrop
      rw [List.reverse_reverse]
      exact List.dropWhile_suffix _
    exact List.reverse_suffix.mp hsuf
  cases he : wsDropEnd s with
  | nil => rfl
  | cons x t =>
    obtain ⟨u, hu⟩ := hpre
    rw [he] at hu
    have hxhead : wsDrop s = x :: (t ++ u) := by
      rw [hs, ← hu, List.cons_append]
    have hx : isWsChar x = false := wsDrop_prefix_head s x (t ++ u) hxhead
    unfold wsDrop
    rw [List.dropWhile_cons_of_neg (by simp [hx])]

theorem jsTrim_idem (s : Str) : jsTrim (jsTrim s) = jsTrim s := by
  unfold jsTrim
  rw [wsDrop_wsDropEnd (wsDrop s) (wsDrop_idem s), wsDropEnd_idem]

theorem jsToLower_reverse (s : Str) : (jsToLower s).reverse = jsToLower s.reverse := by
  unfold jsToLower
  exact (List.map_reverse _ _).symm

theorem wsDrop_jsToLower (s : Str) : wsDrop (jsToLower s) = jsToLower (wsDrop s) := by
  have hcomp : isWsChar ∘ lowerChar = isWsChar := funext isWsChar_lowerChar
  unfold wsDrop jsToLower
  rw [List.dropWhile_map, hcomp]

theorem jsTrim_jsToLower (s : Str) : jsTrim (jsToLower s) = jsToLower (jsTrim s) := by
  unfold jsTrim wsDropEnd
  rw [wsDrop_jsToLower s, jsToLower_reverse, wsDrop_jsToLower, jsToLower_reverse]

theorem jsToLower_jsTrim_jsToLower (s : Str) :
    jsToLower (jsTrim (jsToLower s)) = jsTrim (jsToLower s) := by
  rw [jsTrim_jsToLower, ← jsTrim_jsToLower, jsTrim_jsToLower, jsToLower_idem,
    ← jsTrim_jsToLower]

theorem normEmail_idem (s : Str) : normEmail (normEmail s) = normEmail s := by
  unfold normEmail
  rw [jsToLower_jsTrim_jsToLower, jsTrim_idem]

theorem jsToLower_normEmail (s : Str) : jsToLower (normEmail s) = normEmail s :=
  jsToLower_jsTrim_jsToLower s

theorem jsTrim_normEmail (s : Str) : jsTrim (normEmail s) = normEmail s :=
  jsTrim_idem (jsToLower s)

/-! ## Facts about the repository's `affectedRows` reads

`execute` resolves `{lastID, changes}`, so `result.affectedRows` is
`undefined` and never strictly equal to `1`. -/

theorem isAffectedRowsOne_false (r : ExecResult) : isAffectedRowsOne r = false := rfl

/-- `createUser` never reaches the re-read: after a successful INSERT
the `affectedRows` check fails and it throws. -/
theorem repoCreateUser_eq (i : Str) (f : UserFields) (now : Nat) (st : Store) :
    repoCreateUser i f now st =
      match sqlInsertUser i f now st with
      | .error e => (.error (.sql e), st)
      | .ok (_, st') => (.error .createFailed, st') := by
  unfold repoCreateUser
  cases sqlInsertUser i f now st with
  | error e => rfl
  | ok p =>
    obtain ⟨res, st'⟩ := p
    simp [isAffectedRowsOne_false]

/-- `updateUser` never reaches the re-read: after a successful UPDATE
the `affectedRows` check fails and it resolves `null`. -/
theorem repoUpdateUser_eq (i : Str) (f : UserFields) (now : Nat) (st : Store) :
    repoUpdateUser i f now st =
      match sqlUpdateUser i f now st with
      | .error e => (.error (.sql e), st)
      | .ok (_, st') => (.ok none, st') := by
  unfold repoUpdateUser
  cases sqlUpdateUser i f now st with
  | error e => rfl
  | ok p =>
    obtain ⟨res, st'⟩ := p
    simp [isAffectedRowsOne_false]

/-- `deleteUser` removes the matching row yet always resolves `false`. -/
theorem repoDeleteUser_eq (i : Str) (st : Store) :
    repoDeleteUser i st = (.ok false, st.filter (fun v => decide (v.id ≠ i))) := by
  unfold repoDeleteUser sqlDeleteUser
  simp [isAffectedRowsOne_false]

/-! ## Stores produced by the mutating statements -/

theorem sqlInsertUser_ok (i : Str) (f : UserFields) (now : Nat) (st : Store)
    (res : ExecResult) (st' : Store)
    (h : sqlInsertUser i f now st = .ok (res, st')) :
    st' = st ++ [⟨i, f.name, f.email, f.phone, f.city, f.gender, f.age, now, now⟩] := by
  unfold sqlInsertUser at h
  split at h
  · cases h
  · injection h with h'
    cases h'
    rfl

theorem sqlUpdateUser_ok (i : Str) (f : UserFields) (now : Nat) (st : Store)
    (res : ExecResult) (st' : Store)
    (h : sqlUpdateUser i f now st = .ok (res, st')) :
    st' = st ∨
    st' = st.map (fun v =>
      if v.id = i then
        { v with name := f.name, email := f.email, phone := f.phone, city := f.city,
                 gender := f.gender, age := f.age, updated_at := now }
      else v) := by
  unfold sqlUpdateUser at h
  split at h
  · injection h with h'
    cases h'
    left
    rfl
  · split at h
    · cases h
    · injection h with h'
      cases h'
      right
      rfl

/-! ## Facts extracted from a passing validation -/

theorem valid_errors_eq_nil (d : ReqBody) (h : (validateUserData d).isValid = true) :
    (validateUserData d).errors = [] := by
  have h' : decide ((validateUserData d).errors.length = 0) = true := h
  exact List.length_eq_zero.mp (of_decide_eq_true h')

theorem if_singleton_eq_nil {c : Prop} [Decidable c] {a : VErr}
    (h : (if c then [a] else []) = []) : ¬c := by
  by_cases hc : c
  · rw [if_pos hc] at h
    cases h
  · exact hc

theorem jsTrim_ne_nil_of_not_missing {s : Str} (h : strFieldMissing s = false) :
    jsTrim s ≠ [] := by
  unfold strFieldMissing at h
  exact of_decide_eq_false (Bool.or_eq_false_iff.mp h).2

theorem genderOk_of_genderErrors {g : Str} (hne : decide (g = []) = false)
    (h : genderErrors g = []) : genderOk (jsToLower g) = true := by
  unfold genderErrors at h
  have hcond := Bool.eq_false_iff.mpr (if_singleton_eq_nil h)
  rw [hne] at hcond
  simp only [Bool.not_false, Bool.true_and, Bool.not_eq_false'] at hcond
  exact hcond

theorem ageOk_of_ageErrors {a : JVal} (hfalsy : jsFalsy a = false)
    (h : ageErrors a = []) : ageOkNum (jsNumber a) = true := by
  have hnotundef : a ≠ JVal.undefined := by
    intro hu
    rw [hu] at hfalsy
    cases hfalsy
  unfold ageErrors at h
  rw [if_neg hnotundef] at h
  cases hjn : jsNumber a with
  | nan =>
    rw [hjn] at h
    simp at h
  | int n =>
    rw [hjn] at h
    have hb := if_singleton_eq_nil h
    push_neg at hb
    simp only [ageOkNum, Bool.and_eq_true, decide_eq_true_eq]
    omega

/-- What a passing validation guarantees about the fields the
normalized row is built from. -/
theorem valid_facts (d : ReqBody) (h : (validateUserData d).isValid = true) :
    jsTrim d.name ≠ [] ∧ jsTrim d.phone ≠ [] ∧ jsTrim d.city ≠ [] ∧
    genderOk (jsToLower d.gender) = true ∧ ageOkNum (jsNumber d.age) = true := by
  have hE : requiredErrors d ++ emailErrors d.email ++ ageErrors d.age ++
      genderErrors d.gender = [] := valid_errors_eq_nil d h
  simp only [List.append_eq_nil] at hE
  obtain ⟨⟨⟨hreq, hemail⟩, hage⟩, hgender⟩ := hE
  unfold requiredErrors at hreq
  simp only [List.append_eq_nil] at hreq
  obtain ⟨⟨⟨⟨⟨h1, h2⟩, h3⟩, h4⟩, h5⟩, h6⟩ := hreq
  have hnameF : strFieldMissing d.name = false :=
    Bool.eq_false_iff.mpr (if_singleton_eq_nil h1)
  have hphoneF : strFieldMissing d.phone = false :=
    Bool.eq_false_iff.mpr (if_singleton_eq_nil h3)
  have hcityF : strFieldMissing d.city = false :=
    Bool.eq_false_iff.mpr (if_singleton_eq_nil h4)
  have hgenderF : strFieldMissing d.gender = false :=
    Bool.eq_false_iff.mpr (if_singleton_eq_nil h5)
  have hageF : ageFieldMissing d.age = false :=
    Bool.eq_false_iff.mpr (if_singleton_eq_nil h6)
  refine ⟨jsTrim_ne_nil_of_not_missing hnameF, jsTrim_ne_nil_of_not_missing hphoneF,
    jsTrim_ne_nil_of_not_missing hcityF, ?_, ?_⟩
  · have hgne : decide (d.gender = []) = false := by
      unfold strFieldMissing at hgenderF
      exact (Bool.or_eq_false_iff.mp hgenderF).1
    exact genderOk_of_genderErrors hgne hgender
  · have hfalsy : jsFalsy d.age = false := by
      unfold ageFieldMissing at hageF
      exact (Bool.or_eq_false_iff.mp hageF).1
    exact ageOk_of_ageErrors hfalsy hage

/-! ## The store invariant -/

/-- The row the handlers build from a validated body is normalized,
whatever its id and timestamps. -/
theorem isNormalizedUser_mk (i : Str) (d : ReqBody) (ca ua : Nat)
    (h : (validateUserData d).isValid = true) :
    isNormalizedUser ⟨i, jsTrim d.name, normEmail d.email, jsTrim d.phone, jsTrim d.city,
      jsToLower d.gender, jsNumber d.age, ca, ua⟩ := by
  obtain ⟨hn, hp, hc, hg, ha⟩ := valid_facts d h
  exact ⟨(normEmail_idem d.email).symm, hg, (jsTrim_idem d.name).symm, hn,
    (jsTrim_idem d.phone).symm, hp, (jsTrim_idem d.city).symm, hc, ha⟩

theorem storeNormalized_append {st : Store} {u : User}
    (h : storeNormalized st) (hu : isNormalizedUser u) :
    storeNormalized (st ++ [u]) := by
  intro v hv
  rcases List.mem_append.mp hv with h1 | h1
  · exact h v h1
  · rw [List.mem_singleton.mp h1]
    exact hu

/-! ## Claims -/

/-- C1: the claim states that for every input record passing validation,
`create` inserts the normalized record and returns the persisted record
re-read by id, failing with a StorageError only if the insert affects
zero rows.  Evaluating the code at a valid record on an empty store
refutes this: the INSERT affects exactly one row and the normalized row
persists, yet `createUser` reads `result.affectedRows` — a property the
`{lastID, changes}` object resolved by `execute` does not have — so the
strict comparison with `1` fails and it throws `'Failed to create
user'`; the endpoint answers 500 instead of 201 with the re-read
record. -/
theorem claim1_create_failing_input :
    (validateUserData annBody).isValid = true ∧
    sqlInsertUser ("u1".toList) (normalizedFields annBody) 5 [] = .ok (⟨0, 1⟩, [annUser]) ∧
    repoCreateUser ("u1".toList) (normalizedFields annBody) 5 []
      = (.error .createFailed, [annUser]) ∧
    ctrlCreateUser annBody ("u1".toList) 5 [] = (.serverError, [annUser]) ∧
    statusOf (ctrlCreateUser annBody ("u1".toList) 5 []).1 = 500 := by
  decide

/-- C2 counterexample: the claim states that a uniqueness-constraint
violation surfaced by the mutating statement (after the pre-check missed
a concurrently inserted duplicate) results in a 409 Conflict.  At a
concrete interleaving — pre-check against an empty store, insert against
a store already holding the email — the INSERT is rejected with a
constraint violation, the catch-all handler answers 500, and the outcome
is not the Conflict response. -/
theorem claim2_counterexample :
    ctrlCreateUserAt dupBody ("u2".toList) 7 [] [annUser] = (.serverError, [annUser]) ∧
    statusOf (ctrlCreateUserAt dupBody ("u2".toList) 7 [] [annUser]).1 = 500 ∧
    (ctrlCreateUserAt dupBody ("u2".toList) 7 [] [annUser]).1 ≠ .conflict := by
  decide

/-- C2 amended: for every create or update whose mutating statement
surfaces a storage-layer uniqueness-constraint violation (the pre-check
having missed a concurrent duplicate email), the operation's outcome is
the generic storage failure (HTTP 500), not a Conflict: the catch-all
error handler does not translate constraint violations into 409. -/
theorem claim2_amended :
    (∀ (body : ReqBody) (uuid : Str) (now : Nat) (stCheck stWrite : Store),
      (validateUserData body).isValid = true →
      repoGetUserByEmail (normEmail body.email) stCheck = none →
      sqlInsertUser uuid (normalizedFields body) now stWrite = .error .constraintViolation →
      ctrlCreateUserAt body uuid now stCheck stWrite = (.serverError, stWrite)) ∧
    (∀ (i : Str) (body : ReqBody) (now : Nat) (stCheck stWrite : Store) (existing : User),
      repoGetUserById i stCheck = some existing →
      (validateUserData body).isValid = true →
      repoGetUserByEmail (normEmail body.email) stCheck = none →
      sqlUpdateUser i (normalizedFields body) now stWrite = .error .constraintViolation →
      ctrlUpdateUserAt i body now stCheck stWrite = (.serverError, stWrite)) := by
  constructor
  · intro body uuid now stCheck stWrite hval hpre hins
    simp [ctrlCreateUserAt, repoCreateUser, hval, hpre, hins]
  · intro i body now stCheck stWrite existing hid hval hpre hupd
    simp only [ctrlUpdateUserAt, finishUpdate, repoUpdateUser, hid, hval, hpre, hupd,
      Bool.not_true, Bool.false_eq_true, if_false]
    by_cases hc : body.email ≠ [] ∧ normEmail body.email ≠ existing.email
    · rw [if_pos hc]
    · rw [if_neg hc]

/-- C2 amended, witnessed: the create half at the interleaving of
`claim2_counterexample`, and the update half at an update of `annUser`
to `bobUser`'s email where `bobUser` was inserted between the pre-check
and the UPDATE. -/
theorem claim2_amended_witness :
    ctrlCreateUserAt dupBody ("u2".toList) 7 [] [annUser] = (.serverError, [annUser]) ∧
    ctrlUpdateUserAt ("u1".toList) stealBody 9 [annUser] [annUser, bobUser]
      = (.serverError, [annUser, bobUser]) :=
  ⟨claim2_amended.1 dupBody ("u2".toList) 7 [] [annUser]
      (by decide) (by decide) (by decide),
   claim2_amended.2 ("u1".toList) stealBody 9 [annUser] [annUser, bobUser] annUser
      (by decide) (by decide) (by decide) (by decide)⟩

/-- C3: the claim states that the first delete of an existing id
succeeds and returns true, and a second delete fails with NotFound.
The second half holds, but the first is refuted by evaluation: the
DELETE removes the row (one change), yet `deleteUser` reads
`result.affectedRows` — absent from the `{lastID, changes}` object
resolved by `execute` — so it returns `false` and the endpoint answers
500 `Failed to delete user` instead of the success response. -/
theorem claim3_delete_failing_input :
    sqlDeleteUser ("u1".toList) [annUser] = .ok (⟨0, 1⟩, []) ∧
    repoDeleteUser ("u1".toList) [annUser] = (.ok false, []) ∧
    ctrlDeleteUser ("u1".toList) [annUser] = (.serverError, []) ∧
    statusOf (ctrlDeleteUser ("u1".toList) [annUser]).1 = 500 ∧
    ctrlDeleteUser ("u1".toList) [] = (.notFound, []) := by
  decide

/-- C4: the claim states the validator accepts age 0 and 150, rejects
-1, 151 and non-numeric ages, accepts gender `MALE` (normalized to
lower case) and rejects gender `unknown`.  All of it holds except
age 0: the required-field loop tests `!userData[field]`, the number `0`
is falsy, so a record with age 0 is rejected with `age is required` —
even though the validator's own range check admits 0. -/
theorem claim4_validator_boundaries :
    (validateUserData (boundaryBody ("female".toList) (.num (.int 0)))).isValid = false ∧
    (validateUserData (boundaryBody ("female".toList) (.num (.int 0)))).errors
      = [.required .age] ∧
    (validateUserData (boundaryBody ("female".toList) (.num (.int 150)))).isValid = true ∧
    (validateUserData (boundaryBody ("female".toList) (.num (.int (-1))))).errors
      = [.ageRange] ∧
    (validateUserData (boundaryBody ("female".toList) (.num (.int 151)))).errors
      = [.ageRange] ∧
    (validateUserData (boundaryBody ("female".toList) (.str ("abc".toList)))).errors
      = [.ageRange] ∧
    (validateUserData (boundaryBody ("MALE".toList) (.num (.int 29)))).isValid = true ∧
    jsToLower ("MALE".toList) = "male".toList ∧
    (validateUserData (boundaryBody ("unknown".toList) (.num (.int 29)))).errors
      = [.genderEnum] := by
  decide

/-- C6: the claim states that an update changing the email to a
different record's email fails with Conflict and performs no write
(which holds), and that an update keeping the record's own email (a
no-op email change) succeeds and returns the refreshed record.  The
second half is refuted by evaluation: the UPDATE rewrites the row, yet
`updateUser` reads `result.affectedRows` — absent from the
`{lastID, changes}` object resolved by `execute` — so it resolves
`null` and the endpoint answers 500 `Failed to update user` instead of
200 with the refreshed row. -/
theorem claim6_update_failing_input :
    ctrlUpdateUser ("u2".toList) conflictBody 9 [annUser, bobUser]
      = (.conflict, [annUser, bobUser]) ∧
    sqlUpdateUser ("u1".toList) (normalizedFields updBody) 9 [annUser]
      = .ok (⟨0, 1⟩, [annUserUpd]) ∧
    repoUpdateUser ("u1".toList) (normalizedFields updBody) 9 [annUser]
      = (.ok none, [annUserUpd]) ∧
    ctrlUpdateUser ("u1".toList) updBody 9 [annUser] = (.serverError, [annUserUpd]) ∧
    statusOf (ctrlUpdateUser ("u1".toList) updBody 9 [annUser]).1 = 500 := by
  decide

/-- C7: for every id with no corresponding row, `updateUserById` answers
404 NotFound before any mutating statement executes — for every payload,
valid or not — and the store is unchanged. -/
theorem claim7_update_notfound (i : Str) (body : ReqBody) (now : Nat) (st : Store)
    (h : repoGetUserById i st = none) :
    ctrlUpdateUser i body now st = (.notFound, st) := by
  unfold ctrlUpdateUser ctrlUpdateUserAt
  rw [h]

/-- C7, witnessed at an unknown id with an entirely invalid payload. -/
theorem claim7_witness :
    ctrlUpdateUser ("zz".toList) emptyBody 9 [annUser] = (.notFound, [annUser]) :=
  claim7_update_notfound ("zz".toList) emptyBody 9 [annUser] (by decide)

/-- C5: for every create request that passes validation, against a
normalized store holding a record whose email equals the request's
(trimmed) email up to case, the operation answers 409 Conflict and the
store is unchanged — the insert statement is never reached. -/
theorem claim5_duplicate_create_conflict (body : ReqBody) (uuid : Str) (now : Nat)
    (st : Store) (hnorm : storeNormalized st)
    (hval : (validateUserData body).isValid = true)
    (hdup : ∃ u ∈ st, jsToLower (jsTrim body.email) = jsToLower u.email) :
    ctrlCreateUser body uuid now st = (.conflict, st) := by
  obtain ⟨u, hu, he⟩ := hdup
  have huem : u.email = normEmail u.email := (hnorm u hu).1
  have hlu : jsToLower u.email = u.email := by
    conv_lhs => rw [huem]
    rw [jsToLower_normEmail, ← huem]
  have hkey : normEmail body.email = u.email := by
    have h1 : normEmail body.email = jsToLower (jsTrim body.email) := by
      unfold normEmail
      rw [jsTrim_jsToLower]
    rw [h1, he, hlu]
  obtain ⟨v, hv⟩ : ∃ v, repoGetUserByEmail (normEmail body.email) st = some v := by
    apply Option.isSome_iff_exists.mp
    unfold repoGetUserByEmail
    rw [List.find?_isSome]
    exact ⟨u, hu, decide_eq_true hkey.symm⟩
  simp [ctrlCreateUser, ctrlCreateUserAt, hval, hv]

/-- C5, witnessed: creating with email `ANN@x.com` against a store
holding `ann@x.com`. -/
theorem claim5_witness :
    ctrlCreateUser dupBody ("u2".toList) 7 [annUser] = (.conflict, [annUser]) :=
  claim5_duplicate_create_conflict dupBody ("u2".toList) 7 [annUser]
    (by decide) (by decide) ⟨annUser, by decide, by decide⟩

/-- C8: for every store, listing with `city = "Paris"` yields exactly
the rows whose city is `Paris` (a permutation of the filtered store),
ordered by creation time descending; adding `limit = 2, offset = 1`
yields precisely the 2nd and 3rd entries of that ordering (2 rows
whenever at least 3 match); with no limit/offset the entire filtered
set is returned. -/
theorem claim8_list_filter_order_pagination (st : Store) :
    ∃ l : List User,
      repoGetAllUsers ⟨none, none, some parisStr, none, none⟩ st = .ok l ∧
      List.Perm l (st.filter (fun u => decide (u.city = parisStr))) ∧
      List.Sorted createdGe l ∧
      repoGetAllUsers ⟨some (.int 2), some (.int 1), some parisStr, none, none⟩ st
        = .ok ((l.drop 1).take 2) ∧
      (3 ≤ l.length → ((l.drop 1).take 2).length = 2) := by
  refine ⟨List.insertionSort createdGe (st.filter
      (fun u => cityClause (some parisStr) u && genderClause none u && searchClause none u)),
    rfl, ?_, List.sorted_insertionSort createdGe _, rfl, ?_⟩
  · have hfeq : st.filter
        (fun u => cityClause (some parisStr) u && genderClause none u && searchClause none u)
        = st.filter (fun u => decide (u.city = parisStr)) :=
      List.filter_congr (fun u _ => by
        simp [cityClause, genderClause, searchClause,
          show decide (parisStr = []) = false from by decide])
    rw [← hfeq]
    exact List.perm_insertionSort createdGe _
  · intro h3
    rw [List.length_take, List.length_drop]
    omega

/-- C8, witnessed at a four-row store with three Paris rows created at
times 1, 3, 5. -/
theorem claim8_witness :
    ∃ l : List User,
      repoGetAllUsers ⟨none, none, some parisStr, none, none⟩ parisStore = .ok l ∧
      List.Perm l (parisStore.filter (fun u => decide (u.city = parisStr))) ∧
      List.Sorted createdGe l ∧
      repoGetAllUsers ⟨some (.int 2), some (.int 1), some parisStr, none, none⟩ parisStore
        = .ok ((l.drop 1).take 2) ∧
      (3 ≤ l.length → ((l.drop 1).take 2).length = 2) :=
  claim8_list_filter_order_pagination parisStore

/-- C9: every record written through the create or update handler is
normalized — lower-cased trimmed email, enumerated gender, trimmed
non-empty name/phone/city, age within `[0, 150]` — and against a
normalized store, the point lookup by a lower-cased trimmed candidate
email succeeds exactly when some stored record's email equals the
trimmed candidate up to case. -/
theorem claim9_normalization_invariant :
    (∀ (body : ReqBody) (uuid : Str) (now : Nat) (st : Store),
      storeNormalized st → storeNormalized (ctrlCreateUser body uuid now st).2) ∧
    (∀ (i : Str) (body : ReqBody) (now : Nat) (st : Store),
      storeNormalized st → storeNormalized (ctrlUpdateUser i body now st).2) ∧
    (∀ (e : Str) (st : Store), storeNormalized st →
      ((repoGetUserByEmail (normEmail e) st).isSome ↔
        ∃ u ∈ st, jsToLower (jsTrim e) = jsToLower u.email)) := by
  refine ⟨?_, ?_, ?_⟩
  · intro body uuid now st hst
    unfold ctrlCreateUser ctrlCreateUserAt
    cases hval : (validateUserData body).isValid with
    | false => simpa [hval] using hst
    | true =>
      simp only [hval, Bool.not_true, Bool.false_eq_true, if_false]
      cases hpre : repoGetUserByEmail (normEmail body.email) st with
      | some u => exact hst
      | none =>
        rw [repoCreateUser_eq]
        cases hins : sqlInsertUser uuid (normalizedFields body) now st with
        | error e => exact hst
        | ok p =>
          obtain ⟨res, st'⟩ := p
          rw [sqlInsertUser_ok uuid (normalizedFields body) now st res st' hins]
          exact storeNormalized_append hst (isNormalizedUser_mk uuid body now now hval)
  · intro i body now st hst
    unfold ctrlUpdateUser ctrlUpdateUserAt
    cases hid : repoGetUserById i st with
    | none => exact hst
    | some existing =>
      cases hval : (validateUserData body).isValid with
      | false => simpa [hval] using hst
      | true =>
        simp only [hval, Bool.not_true, Bool.false_eq_true, if_false]
        have hfin : storeNormalized (finishUpdate i (normalizedFields body) now st).2 := by
          unfold finishUpdate
          rw [repoUpdateUser_eq]
          cases hupd : sqlUpdateUser i (normalizedFields body) now st with
          | error e => exact hst
          | ok p =>
            obtain ⟨res, st'⟩ := p
            rcases sqlUpdateUser_ok i (normalizedFields body) now st res st' hupd
              with rfl | hmap
            · exact hst
            · rw [hmap]
              intro v hv
              rcases List.mem_map.mp hv with ⟨w, hw, rfl⟩
              by_cases hwid : w.id = i
              · rw [if_pos hwid]
                exact isNormalizedUser_mk w.id body w.created_at now hval
              · rw [if_neg hwid]
                exact hst w hw
        by_cases hc : body.email ≠ [] ∧ normEmail body.email ≠ existing.email
        · rw [if_pos hc]
          cases hpre : repoGetUserByEmail (normEmail body.email) st with
          | some u => exact hst
          | none => exact hfin
        · rw [if_neg hc]
          exact hfin
  · intro e st hst
    unfold repoGetUserByEmail
    constructor
    · intro h
      obtain ⟨u, hu, hp⟩ := List.find?_isSome.mp h
      have hue : u.email = normEmail e := of_decide_eq_true hp
      have huem : u.email = normEmail u.email := (hst u hu).1
      have hlu : jsToLower u.email = u.email := by
        conv_lhs => rw [huem]
        rw [jsToLower_normEmail, ← huem]
      refine ⟨u, hu, ?_⟩
      rw [hlu, hue]
      unfold normEmail
      rw [jsTrim_jsToLower]
    · intro hex
      obtain ⟨u, hu, he⟩ := hex
      apply List.find?_isSome.mpr
      have huem : u.email = normEmail u.email := (hst u hu).1
      have hlu : jsToLower u.email = u.email := by
        conv_lhs => rw [huem]
        rw [jsToLower_normEmail, ← huem]
      refine ⟨u, hu, decide_eq_true ?_⟩
      rw [← hlu, ← he]
      unfold normEmail
      rw [jsTrim_jsToLower]

/-- C9, witnessed: the invariant after a concrete create on the empty
store and a concrete update, and the lookup equivalence at a
case-differing candidate email. -/
theorem claim9_witness :
    storeNormalized (ctrlCreateUser annBody ("u1".toList) 5 []).2 ∧
    storeNormalized (ctrlUpdateUser ("u1".toList) updBody 9 [annUser]).2 ∧
    ((repoGetUserByEmail (normEmail ("ANN@x.com".toList)) [annUser]).isSome ↔
      ∃ u ∈ ([annUser] : Store), jsToLower (jsTrim ("ANN@x.com".toList)) = jsToLower u.email) :=
  ⟨claim9_normalization_invariant.1 annBody ("u1".toList) 5 [] (by decide),
   claim9_normalization_invariant.2.1 ("u1".toList) updBody 9 [annUser] (by decide),
   claim9_normalization_invariant.2.2 ("ANN@x.com".toList) [annUser] (by decide)⟩

/-- C10: for every list request answered 200, the pagination metadata's
`total` counts the rows matching the city/gender filters only — the
search filter is ignored — while `count` is the length of the returned
array; consequently `total` can exceed the number of records matching
the request, as a concrete store with a search filter shows. -/
theorem claim10_total_ignores_search :
    (∀ (q : ListQuery) (st : Store) (users : List User) (total : Nat)
        (lim : Option Int) (off : Int) (cnt : Nat),
      ctrlGetAllUsers q st = .okList users total lim off cnt →
      total = (st.filter (fun u => cityClause q.city u && genderClause q.gender u)).length ∧
      cnt = users.length) ∧
    (∃ (q : ListQuery) (st : Store) (users : List User) (total : Nat)
        (lim : Option Int) (off : Int) (cnt : Nat),
      q.search ≠ none ∧ ctrlGetAllUsers q st = .okList users total lim off cnt ∧
      users.length < total) := by
  constructor
  · intro q st users total lim off cnt h
    simp only [ctrlGetAllUsers] at h
    cases hrep : repoGetAllUsers ⟨queryNumOpt q.limit, queryNumOpt q.offset,
        queryStrOpt q.city, queryStrOpt q.gender, queryStrOpt q.search⟩ st with
    | error e =>
      rw [hrep] at h
      cases h
    | ok us =>
      rw [hrep] at h
      injection h with h1 h2 h3 h4 h5
      constructor
      · rw [← h2]
        rfl
      · rw [← h5, h1]
  · exact ⟨parisSearchQuery, parisStore,
      [cityRow ("a".toList) ("a@x.com".toList) parisStr 1], 3, none, 0, 1,
      by decide, by decide, by decide⟩

/-- C10, witnessed at the concrete Paris store with a search filter. -/
theorem claim10_witness :
    (3 : Nat) = (parisStore.filter (fun u =>
        cityClause parisSearchQuery.city u && genderClause parisSearchQuery.gender u)).length ∧
    (1 : Nat) = ([cityRow ("a".toList) ("a@x.com".toList) parisStr 1] : List User).length :=
  claim10_total_ignores_search.1 parisSearchQuery parisStore
    [cityRow ("a".toList) ("a@x.com".toList) parisStr 1] 3 none 0 1 (by decide)

end Users
